import Mathlib

/-!
Verification development for the panel-of-judges evaluation core of the
rhel-lightspeed-evaluation repository.

The Python sources are shallowly embedded as executable Lean definitions:
scores and thresholds (Python floats) are modelled as rationals, Python
dictionaries as association lists, `None` as `Option.none`, and raised
exceptions as `Except.error`.  Each definition's doc comment names the
source function it embeds.
-/

/-- Helper: the single-quote character, used to reproduce Python error
message strings that contain quotes. -/
def sglQuote : String := String.singleton (Char.ofNat 39)

/-- Helper: first-match lookup in an association list, the model of a
Python dictionary access `d[key]` / `key in d`. -/
def assocLookup {α : Type} : List (String × α) → String → Option α
  | [], _ => none
  | (k, v) :: rest, key => if k = key then some v else assocLookup rest key

/-- Embeds the GEval rubric dictionary shape read by
`GEvalHandler.evaluate` (src geval.py): `criteria`, `evaluation_params`
(default `[]`), `evaluation_steps`, `threshold` (default 0.5).  Absent
dictionary keys are `none`. -/
structure GEvalConfig where
  criteria : Option String := none
  evaluation_params : Option (List String) := none
  evaluation_steps : Option (List String) := none
  threshold : Option ℚ := none
deriving DecidableEq, Repr

/-- Embeds the fields of `TurnData` used by the GEval handler: the turn
text fields and the `turn_metrics_metadata` mapping (a Python dict or
`None`; an empty list models an empty dict). -/
structure TurnData where
  query : String := ""
  response : Option String := none
  expected_response : Option String := none
  contexts : List String := []
  turn_metrics_metadata : Option (List (String × GEvalConfig)) := none
deriving DecidableEq, Repr

/-- Embeds the fields of the conversation data object used by the GEval
handler and the evaluator: `conversation_group_id`, the list of turns and
the `conversation_metrics_metadata` mapping. -/
structure ConvData where
  conversation_group_id : String := ""
  turns : List TurnData := []
  conversation_metrics_metadata : Option (List (String × GEvalConfig)) := none
deriving DecidableEq, Repr

/-- Python truthiness of a metadata mapping: `None` and the empty dict are
falsy, a non-empty dict is truthy. -/
def truthyMeta {α : Type} (m : Option (List (String × α))) : Bool :=
  match m with
  | none => false
  | some l => !l.isEmpty

/-- Dictionary lookup through an optional mapping (`None` has no keys). -/
def lookupMeta {α : Type} (m : Option (List (String × α))) (key : String) : Option α :=
  match m with
  | none => none
  | some l => assocLookup l key

/-- Embeds the turn-level branch of `GEvalHandler._get_geval_config`
(src geval.py lines 430-438): the turn metadata entry is returned only
when not evaluating a conversation, turn data is present, the metadata
mapping is truthy and it contains the key. -/
def turnLevelConfig (metricKey : String) (turnData : Option TurnData)
    (isConversation : Bool) : Option GEvalConfig :=
  match turnData with
  | none => none
  | some td =>
    if isConversation then none
    else if truthyMeta td.turn_metrics_metadata then
      lookupMeta td.turn_metrics_metadata metricKey
    else none

/-- Embeds the conversation-level branch of
`GEvalHandler._get_geval_config` (src geval.py lines 442-448). -/
def convLevelConfig (metricKey : String) (convData : ConvData) : Option GEvalConfig :=
  if truthyMeta convData.conversation_metrics_metadata then
    lookupMeta convData.conversation_metrics_metadata metricKey
  else none

/-- Embeds the registry branch of `GEvalHandler._get_geval_config`
(src geval.py lines 452-454): the class-level registry is consulted only
when it is loaded and non-empty, keyed by the metric name without the
`geval:` prefix. -/
def registryConfig (registry : Option (List (String × GEvalConfig)))
    (metricName : String) : Option GEvalConfig :=
  if truthyMeta registry then lookupMeta registry metricName else none

/-- Embeds `GEvalHandler._get_geval_config` (src geval.py lines 396-461):
resolution checks turn-level metadata, then conversation-level metadata,
then the shared registry, under the key `geval:{metric_name}` for the two
metadata sources and the bare metric name for the registry; the first
match wins and `none` is returned when no source defines the metric. -/
def getGevalConfig (registry : Option (List (String × GEvalConfig)))
    (metricName : String) (convData : ConvData) (turnData : Option TurnData)
    (isConversation : Bool) : Option GEvalConfig :=
  let metricKey := "geval:" ++ metricName
  match turnLevelConfig metricKey turnData isConversation with
  | some cfg => some cfg
  | none =>
    match convLevelConfig metricKey convData with
    | some cfg => some cfg
    | none => registryConfig registry metricName

/-- Environment for registry loading: which filesystem paths exist, and
the parse outcome at a path (`none` models an exception raised while
opening or parsing the file, which the source catches and turns into an
empty registry; a falsy `yaml.safe_load` result is `some []`). -/
structure RegistryEnv where
  pathExists : String → Bool
  parseYaml : String → Option (List (String × GEvalConfig))

/-- The two candidate registry locations tried by
`GEvalHandler._load_registry` when no explicit path is supplied
(src geval.py lines 89-95), abstracted as opaque path strings. -/
def candidatePaths : List String :=
  ["CWD/config/registry/geval_metrics.yaml",
   "PKGROOT/config/registry/geval_metrics.yaml"]

/-- Embeds `GEvalHandler._load_registry` (src geval.py lines 57-120) as a
transition on the class-level `_registry` state (`none` = not yet
loaded).  The branch structure follows the source: return immediately
when already loaded; use the explicit path when given, otherwise the
first existing candidate; on a missing file log a warning whose f-string
interpolates the local `possible_paths` — a name bound only in the
no-explicit-path branch, so the explicit-path case raises a `NameError`,
modelled as `Except.error`; otherwise parse, with any parse failure
yielding an empty registry. -/
def loadRegistry (current : Option (List (String × GEvalConfig)))
    (registryPath : Option String) (env : RegistryEnv) :
    Except String (Option (List (String × GEvalConfig))) :=
  match current with
  | some r => Except.ok (some r)
  | none =>
    let pathAndCandidates : Option String × Option (List String) :=
      match registryPath with
      | some rp => (some rp, none)
      | none => (candidatePaths.find? env.pathExists, some candidatePaths)
    let path := pathAndCandidates.1
    let possiblePaths := pathAndCandidates.2
    match path with
    | none =>
      match possiblePaths with
      | none => Except.error "NameError: name possible_paths is not defined"
      | some _ => Except.ok (some [])
    | some p =>
      if env.pathExists p then
        match env.parseYaml p with
        | some r => Except.ok (some r)
        | none => Except.ok (some [])
      else
        match possiblePaths with
        | none => Except.error "NameError: name possible_paths is not defined"
        | some _ => Except.ok (some [])

/-- Models the `LLMTestCaseParams` enum of the external deepeval library
(the canonical test-case parameter vocabulary referenced by
`GEvalHandler._convert_evaluation_params`). -/
inductive LLMTestCaseParams where
  | INPUT
  | ACTUAL_OUTPUT
  | EXPECTED_OUTPUT
  | CONTEXT
  | RETRIEVAL_CONTEXT
  | TOOLS_CALLED
  | EXPECTED_TOOLS
deriving DecidableEq, Repr

/-- Helper: single-character substring replacement, the model of the
Python `str.replace` calls of the sources (all of which use
single-character patterns). -/
def replaceChar (c r : Char) (s : String) : String :=
  String.mk (s.data.map (fun x => if x = c then r else x))

/-- Helper: ASCII upper-casing, the model of Python `str.upper()` on the
ASCII configuration strings of the sources. -/
def upperAscii (s : String) : String :=
  String.mk (s.data.map Char.toUpper)

/-- Embeds the normalization `param.upper().replace(" ", "_")` applied to
each configured parameter name (src geval.py line 224). -/
def normalizeParamName (s : String) : String :=
  replaceChar ' ' '_' (upperAscii s)

/-- Models the enum-name lookup `LLMTestCaseParams[name]` of the external
deepeval library: `none` is the `KeyError` case. -/
def paramFromName (s : String) : Option LLMTestCaseParams :=
  if s = "INPUT" then some .INPUT
  else if s = "ACTUAL_OUTPUT" then some .ACTUAL_OUTPUT
  else if s = "EXPECTED_OUTPUT" then some .EXPECTED_OUTPUT
  else if s = "CONTEXT" then some .CONTEXT
  else if s = "RETRIEVAL_CONTEXT" then some .RETRIEVAL_CONTEXT
  else if s = "TOOLS_CALLED" then some .TOOLS_CALLED
  else if s = "EXPECTED_TOOLS" then some .EXPECTED_TOOLS
  else none

/-- Embeds the conversion loop of
`GEvalHandler._convert_evaluation_params` (src geval.py lines 218-233):
each name is normalized and looked up in the enum; the first failure
returns `none` for the whole list. -/
def convertParamsList : List String → Option (List LLMTestCaseParams)
  | [] => some []
  | p :: rest =>
    match paramFromName (normalizeParamName p) with
    | none => none
    | some e =>
      match convertParamsList rest with
      | none => none
      | some l => some (e :: l)

/-- Embeds `GEvalHandler._convert_evaluation_params` (src geval.py lines
195-236): an empty input returns `none` early; any invalid entry discards
the whole list; an all-valid list is returned converted, with the final
`converted if converted else None` guard. -/
def convertEvaluationParams (params : List String) : Option (List LLMTestCaseParams) :=
  if params.isEmpty then none
  else
    match convertParamsList params with
    | none => none
    | some l => if l.isEmpty then none else some l

/-- Embeds the parameter selection of `GEvalHandler._evaluate_turn`
(src geval.py lines 274-277): when conversion yields no parameters the
default pair `[INPUT, ACTUAL_OUTPUT]` is used. -/
def effectiveEvaluationParams (params : List String) : List LLMTestCaseParams :=
  match convertEvaluationParams params with
  | none => [.INPUT, .ACTUAL_OUTPUT]
  | some [] => [.INPUT, .ACTUAL_OUTPUT]
  | some (e :: l) => e :: l

/-- The not-found message of `GEvalHandler.evaluate`
(src geval.py line 172). -/
def configNotFoundMsg (metricName : String) : String :=
  "GEval configuration not found for metric " ++ sglQuote ++ metricName ++ sglQuote

/-- The missing-criteria message of `GEvalHandler.evaluate`
(src geval.py line 183). -/
def missingCriteriaMsg : String :=
  "GEval requires " ++ sglQuote ++ "criteria" ++ sglQuote ++ " in configuration"

/-- The per-judge failure message of `GEvalHandler._evaluate_turn` /
`_evaluate_conversation` (src geval.py lines 315 and 394). -/
def evalErrorMsg (m : String) : String :=
  "GEval evaluation error: " ++ m

/-- Outcome of invoking one judge model on the shared test case: a
returned (score, reason) pair, or a raised exception message. -/
inductive JudgeOutcome where
  | ok (score : ℚ) (reason : String)
  | exn (msg : String)
deriving DecidableEq, Repr

/-- Modelled from the spec: the per-judge fan-out loop of
`GEvalHandlerExt.evaluate` (module
`rhel_lightspeed_evaluation.extensions.core.metrics.geval`, imported by
the sources but absent from src/).  Per spec section 4.4, judges are
iterated in registration order and each invocation is isolated: an
exception while scoring judge k is caught and converted to a
`(judge_id_k, None, "GEval evaluation error: <message>")` tuple, using
the error-message shape of the src `GEvalHandler`. -/
def invokeJudges (judges : List (String × JudgeOutcome)) :
    List (String × Option ℚ × String) :=
  judges.map (fun j =>
    match j.2 with
    | .ok s r => (j.1, some s, r)
    | .exn m => (j.1, none, evalErrorMsg m))

/-- Modelled from the spec: `GEvalHandlerExt.evaluate`, the panel
evaluation core (absent from src/; spec section 4.4).  The rubric is
resolved through the src `_get_geval_config`; a missing rubric or missing
`criteria` text short-circuits to a single ERROR-shaped tuple (the spec
fixes the single-tuple shape but not its judge identifier; `"primary"` is
used, which the verdict assembler renders as a null judge), and otherwise
every judge handle is invoked in order with per-judge isolation.  The
judge list carries each invocation's outcome, keeping the model of the
external LLM calls explicit. -/
def gevalHandlerExtEvaluate (registry : Option (List (String × GEvalConfig)))
    (metricName : String) (convData : ConvData) (turnData : Option TurnData)
    (isConversation : Bool) (judges : List (String × JudgeOutcome)) :
    List (String × Option ℚ × String) :=
  match getGevalConfig registry metricName convData turnData isConversation with
  | none => [("primary", none, configNotFoundMsg metricName)]
  | some cfg =>
    if cfg.criteria.getD "" = "" then [("primary", none, missingCriteriaMsg)]
    else invokeJudges judges

/-- Embeds the `JudgeConfig` pydantic model (src system.py lines 68-105):
per-judge provider, model, temperature and optional overrides.  Field
constraints (provider/model non-empty, temperature in [0,2],
max_tokens/timeout at least 1, num_retries at least 0 with `Nat`) are
enforced by pydantic on explicitly supplied values. -/
structure JudgeConfig where
  judge_id : Option String := none
  provider : String
  model : String
  temperature : ℚ := 0
  max_tokens : Option Nat := none
  timeout : Option Nat := none
  num_retries : Option Nat := none
deriving DecidableEq, Repr

/-- Embeds the model-name sanitization of
`PanelOfJudgesConfig.validate_judges` (src system.py lines 168-170):
`model.replace("/", "_").replace(":", "_").replace(".", "_")`. -/
def sanitizedModel (m : String) : String :=
  replaceChar '.' '_' (replaceChar ':' '_' (replaceChar '/' '_' m))

/-- Embeds the ID auto-generation loop of `validate_judges`
(src system.py lines 164-171): a judge whose `judge_id` is falsy (`None`
or empty) receives `{provider}_{sanitized_model}`. -/
def autoId (j : JudgeConfig) : JudgeConfig :=
  if j.judge_id.getD "" = "" then
    { j with judge_id := some (j.provider ++ "_" ++ sanitizedModel j.model) }
  else j

/-- Embeds insertion into the `seen` dictionary of `validate_judges`
(Python dict assignment, keyed by judge ID). -/
def seenInsert : List (String × Nat) → String → Nat → List (String × Nat)
  | [], key, n => [(key, n)]
  | (k, m) :: rest, key, n =>
    if k = key then (key, n) :: rest else (k, m) :: seenInsert rest key n

/-- Embeds the duplicate-suffixing loop of `validate_judges`
(src system.py lines 177-183): walking the judges in input order, a judge
whose ID was already seen gets the suffix `_{count}`; the renamed ID is
not recorded in `seen`, exactly as in the source. -/
def suffixPass : List (String × Nat) → List JudgeConfig → List JudgeConfig
  | _, [] => []
  | seen, j :: rest =>
    let jid := j.judge_id.getD ""
    match assocLookup seen jid with
    | some n =>
      { j with judge_id := some (jid ++ "_" ++ toString (n + 1)) } ::
        suffixPass (seenInsert seen jid (n + 1)) rest
    | none => j :: suffixPass (seenInsert seen jid 1) rest

/-- Embeds `PanelOfJudgesConfig.validate_judges` (src system.py lines
158-185): auto-generate missing IDs, then run the suffixing pass only
when the ID list contains duplicates. -/
def validateJudges (v : List JudgeConfig) : List JudgeConfig :=
  let derived := v.map autoId
  let ids : List String := derived.map (fun j => j.judge_id.getD "")
  if ids.dedup.length = ids.length then derived else suffixPass [] derived

/-- Embeds the `PanelOfJudgesConfig` pydantic model (src system.py lines
108-185) with its field defaults. -/
structure PanelOfJudgesConfig where
  enabled : Bool := false
  apply_to : List String := ["geval", "custom"]
  aggregation_method : String := "mean"
  output_individual_scores : Bool := false
  judges : List JudgeConfig := []
deriving DecidableEq, Repr

/-- Embeds pydantic construction of `PanelOfJudgesConfig` restricted to
the `enabled` and `judges` fields (src system.py lines 113-133): an
explicitly supplied judges list is checked against `min_length=1` and
passed through the `validate_judges` field validator, while an omitted
field takes the `default_factory=list` default, which pydantic does not
validate (`validate_default` is false by default). -/
def mkPanelOfJudgesConfig (enabled : Bool) (judges : Option (List JudgeConfig)) :
    Except String PanelOfJudgesConfig :=
  match judges with
  | none => Except.ok { enabled := enabled }
  | some l =>
    if l.length < 1 then
      Except.error "judges: List should have at least 1 item after validation"
    else Except.ok { enabled := enabled, judges := validateJudges l }

/-- Embeds the relevant keys of the `default_params` dictionary handed to
`DeepEvalLLMManagerExt` (the system-wide LLM parameters). -/
structure DefaultParams where
  max_tokens : Option Nat := none
  timeout : Option Nat := none
  num_retries : Option Nat := none
  cache_dir : Option String := none
  cache_enabled : Option Bool := none
deriving DecidableEq, Repr

/-- Models the Python `or` operator on optional integers: `None` and `0`
are falsy, so `a or b` yields `b` whenever `a` is absent or zero. -/
def pyOrNat (a b : Option Nat) : Option Nat :=
  match a with
  | some n => if n = 0 then b else some n
  | none => b

/-- Embeds the effective max_tokens computation
`judge_config.max_tokens or default_params.get("max_tokens") or 512`
(src llm/deepeval.py lines 87-89 and 120-122). -/
def effMaxTokens (j : JudgeConfig) (d : DefaultParams) : Option Nat :=
  pyOrNat j.max_tokens (pyOrNat d.max_tokens (some 512))

/-- Embeds the effective timeout computation
`judge_config.timeout or default_params.get("timeout") or 300`
(src llm/deepeval.py lines 90 and 123). -/
def effTimeout (j : JudgeConfig) (d : DefaultParams) : Option Nat :=
  pyOrNat j.timeout (pyOrNat d.timeout (some 300))

/-- Embeds the effective num_retries computation
`judge_config.num_retries or default_params.get("num_retries", 3)`
(src llm/deepeval.py lines 91-93 and 124-126): the dictionary `get`
defaults to 3, then Python `or` drops a falsy per-judge value. -/
def effNumRetries (j : JudgeConfig) (d : DefaultParams) : Option Nat :=
  pyOrNat j.num_retries (some (d.num_retries.getD 3))

/-- Embeds the `LLMConfig` instance built by
`DeepEvalLLMManagerExt._create_judge_llm_config`
(src llm/deepeval.py lines 128-137). -/
structure LLMConfig where
  provider : String
  model : String
  temperature : ℚ
  max_tokens : Option Nat
  timeout : Option Nat
  num_retries : Option Nat
  cache_dir : String
  cache_enabled : Bool
deriving DecidableEq, Repr

/-- Embeds `DeepEvalLLMManagerExt._create_judge_llm_config`
(src llm/deepeval.py lines 107-137). -/
def createJudgeLLMConfig (j : JudgeConfig) (d : DefaultParams) : LLMConfig :=
  { provider := j.provider
    model := j.model
    temperature := j.temperature
    max_tokens := effMaxTokens j d
    timeout := effTimeout j d
    num_retries := effNumRetries j d
    cache_dir := d.cache_dir.getD ".caches/llm_cache"
    cache_enabled := d.cache_enabled.getD true }

/-- Embeds the argument record of the `LiteLLMModel` constructed for each
judge (src llm/deepeval.py lines 96-102); the model name has already been
resolved through the external `LLMManager`. -/
structure LiteLLMModelSpec where
  model : String
  temperature : ℚ
  max_tokens : Option Nat
  timeout : Option Nat
  num_retries : Option Nat
deriving DecidableEq, Repr

/-- Embeds `DeepEvalLLMManagerExt._initialize_panel_judges`
(src llm/deepeval.py lines 44-105): raises `ValueError` on an empty judge
list, asserts that every judge carries an ID, and builds one
`LiteLLMModel` per judge in configuration order using the `or`-chain
effective parameters; `resolve` models the external provider-specific
model-name resolution. -/
def initPanelJudges (cfg : PanelOfJudgesConfig) (d : DefaultParams)
    (resolve : String → String → String) :
    Except String (List (String × LiteLLMModelSpec)) :=
  if cfg.judges.isEmpty then
    Except.error "Panel of judges is enabled but no judges are configured."
  else if cfg.judges.any (fun j => j.judge_id.isNone) then
    Except.error "Judge ID must be set by validator"
  else
    Except.ok (cfg.judges.map (fun j =>
      (j.judge_id.getD "",
       { model := resolve j.provider j.model
         temperature := j.temperature
         max_tokens := effMaxTokens j d
         timeout := effTimeout j d
         num_retries := effNumRetries j d })))

/-- Embeds the state of `DeepEvalLLMManagerExt` after `__init__`
(src llm/deepeval.py lines 25-41): the panel flag, the judge models (only
populated in panel mode) and the primary model built by the base class. -/
structure DeepEvalLLMManagerExtState where
  model_name : String
  panel_enabled : Bool
  judge_models : List (String × LiteLLMModelSpec)
  llm_model : LiteLLMModelSpec
deriving DecidableEq, Repr

/-- Embeds `DeepEvalLLMManagerExt.__init__` (src llm/deepeval.py lines
25-41): `panel_enabled` is `panel_config.enabled if panel_config else
False`, and the judge list is initialized only when the panel is
enabled.  The primary model built by the base class is a parameter. -/
def mkDeepEvalLLMManagerExt (model_name : String) (llm_params : DefaultParams)
    (primary : LiteLLMModelSpec) (panel_config : Option PanelOfJudgesConfig)
    (resolve : String → String → String) :
    Except String DeepEvalLLMManagerExtState :=
  let enabled := match panel_config with
    | some c => c.enabled
    | none => false
  match panel_config with
  | some c =>
    if enabled then
      match initPanelJudges c llm_params resolve with
      | Except.error e => Except.error e
      | Except.ok jms =>
        Except.ok { model_name := model_name, panel_enabled := enabled,
                    judge_models := jms, llm_model := primary }
    else
      Except.ok { model_name := model_name, panel_enabled := enabled,
                  judge_models := [], llm_model := primary }
  | none =>
    Except.ok { model_name := model_name, panel_enabled := enabled,
                judge_models := [], llm_model := primary }

/-- Embeds `DeepEvalLLMManagerExt.get_llms` (src llm/deepeval.py lines
160-170): all judge handles in panel mode, otherwise the single primary
handle under the identifier `"primary"`. -/
def getLLMs (st : DeepEvalLLMManagerExtState) : List (String × LiteLLMModelSpec) :=
  if st.panel_enabled && !st.judge_models.isEmpty then st.judge_models
  else [("primary", st.llm_model)]

/-- Evaluation result status strings used by `MetricsEvaluatorExt`
(src evaluator.py): PASS, FAIL or ERROR. -/
inductive Status where
  | PASS
  | FAIL
  | ERROR
deriving DecidableEq, Repr

/-- Embeds the fields of `EvaluationRequest` consumed by
`MetricsEvaluatorExt.evaluate_metric` (src evaluator.py). -/
structure EvaluationRequest where
  conv_data : ConvData := {}
  turn_id : Option Nat := none
  turn_idx : Option Nat := none
  turn_data : Option TurnData := none
  is_conversation : Bool := false
  metric_identifier : String := ""
deriving DecidableEq, Repr

/-- Embeds `EvaluationResultExt` (src models/data.py): the framework
`EvaluationResult` extended with a nullable `judge_id`. -/
structure EvaluationResultExt where
  conversation_group_id : String
  turn_id : Option Nat
  metric_identifier : String
  judge_id : Option String
  result : Status
  score : Option ℚ
  threshold : Option ℚ
  reason : String
  query : String
  response : String
  execution_time : ℚ
deriving DecidableEq, Repr

/-- Embeds `MetricsEvaluatorExt._determine_status` (src evaluator.py
lines 231-235): a missing threshold defaults to 0.5, and the comparison
`score >= threshold` is inclusive. -/
def determineStatus (score : ℚ) (threshold : Option ℚ) : Status :=
  let t := threshold.getD (1 / 2)
  if t ≤ score then Status.PASS else Status.FAIL

/-- Embeds `MetricsEvaluatorExt._create_error_result` (src evaluator.py
lines 209-229): an ERROR result with absent score and threshold, the
`"primary"` judge identifier normalized to `None`. -/
def createErrorResult (req : EvaluationRequest) (reason : String)
    (execution_time : ℚ) (judge_id : Option String) : EvaluationResultExt :=
  { conversation_group_id := req.conv_data.conversation_group_id
    turn_id := req.turn_id
    metric_identifier := req.metric_identifier
    judge_id := if judge_id = some "primary" then none else judge_id
    result := Status.ERROR
    score := none
    threshold := none
    reason := reason
    query := (req.turn_data.map (fun td => td.query)).getD ""
    response := (req.turn_data.map (fun td => td.response.getD "")).getD ""
    execution_time := execution_time }

/-- Embeds the success-verdict construction inside
`MetricsEvaluatorExt.evaluate_metric` (src evaluator.py lines 150-171):
status from `_determine_status`, the threshold carried through, and the
`"primary"` judge identifier normalized to `None`. -/
def createSuccessResult (req : EvaluationRequest) (judge_id : String)
    (score : ℚ) (threshold : Option ℚ) (reason : String)
    (execution_time : ℚ) : EvaluationResultExt :=
  { conversation_group_id := req.conv_data.conversation_group_id
    turn_id := req.turn_id
    metric_identifier := req.metric_identifier
    judge_id := if judge_id = "primary" then none else some judge_id
    result := determineStatus score threshold
    score := some score
    threshold := threshold
    reason := reason
    query := (req.turn_data.map (fun td => td.query)).getD ""
    response := (req.turn_data.map (fun td => td.response.getD "")).getD ""
    execution_time := execution_time }

/-- Embeds the per-tuple verdict assembly of
`MetricsEvaluatorExt.evaluate_metric` (src evaluator.py lines 142-171): a
tuple with an absent score becomes an ERROR result, any other tuple a
PASS/FAIL result. -/
def assembleVerdict (req : EvaluationRequest) (threshold : Option ℚ)
    (execution_time : ℚ) (judge_id : String) (score : Option ℚ)
    (reason : String) : EvaluationResultExt :=
  match score with
  | none => createErrorResult req reason execution_time (some judge_id)
  | some s => createSuccessResult req judge_id s threshold reason execution_time

/-- Embeds the list-result branch of
`MetricsEvaluatorExt.evaluate_metric` (src evaluator.py lines 139-172):
every (judge_id, score, reason) tuple returned by a panel-aware handler
is assembled into one verdict. -/
def processHandlerResult (req : EvaluationRequest) (threshold : Option ℚ)
    (execution_time : ℚ) (hr : List (String × Option ℚ × String)) :
    List EvaluationResultExt :=
  hr.map (fun item => assembleVerdict req threshold execution_time item.1 item.2.1 item.2.2)

/-- Concrete request used by witness theorems. -/
def sampleRequest : EvaluationRequest :=
  { conv_data := { conversation_group_id := "conv1" }
    turn_id := some 1
    turn_data := some { query := "q" }
    metric_identifier := "geval:tech" }

/-- Judge list whose auto-derived identifiers are `p_m`, `p_m` and
`p_m_2` (the third via sanitization of the model name `m.2`): the
suffixing pass renames the second judge to `p_m_2`, colliding with the
third. -/
def duplicateSuffixJudges : List JudgeConfig :=
  [{ provider := "p", model := "m" },
   { provider := "p", model := "m" },
   { provider := "p", model := "m.2" }]

/-- C10: constructing a panel configuration with an explicitly supplied
empty judges list is rejected by validation regardless of the enabled
flag, whereas omitting the judges field yields a valid configuration
whose judges list is empty. -/
theorem panel_config_empty_judges (e : Bool) :
    mkPanelOfJudgesConfig e (some []) =
      Except.error "judges: List should have at least 1 item after validation" ∧
    mkPanelOfJudgesConfig e none =
      Except.ok { enabled := e, apply_to := ["geval", "custom"],
                  aggregation_method := "mean", output_individual_scores := false,
                  judges := [] } :=
  ⟨rfl, rfl⟩

/-- C3: evaluating `validate_judges` at a judge list with no explicit
IDs whose derived identifiers are `p_m`, `p_m`, `p_m_2` produces the
identifier `p_m_2` twice — the suffixing pass does not record renamed
identifiers in `seen`, so the validated output is NOT pairwise distinct,
contradicting the uniqueness claim. -/
theorem validate_judges_id_collision :
    (validateJudges duplicateSuffixJudges).map (fun j => j.judge_id) =
      [some "p_m", some "p_m_2", some "p_m_2"] ∧
    ¬ ((validateJudges duplicateSuffixJudges).map (fun j => j.judge_id)).Nodup :=
  ⟨rfl, by decide⟩

/-- Judge that explicitly configures zero retries. -/
def zeroRetriesJudge : JudgeConfig :=
  { judge_id := some "j1", provider := "openai", model := "gpt-4o",
    num_retries := some 0 }

/-- Panel-wide defaults carrying five retries. -/
def retriesDefaults : DefaultParams := { num_retries := some 5 }

/-- C5: evaluating the judge-parameter merge at a judge with
`num_retries = 0`: the built configuration carries the panel default 5
(and the hardcoded 3 when no default exists) instead of the configured
0 — the Python `or` chain treats the present value 0 as absent,
contradicting the claim that a present per-judge value always wins. -/
theorem judge_num_retries_zero_ignored :
    zeroRetriesJudge.num_retries = some 0 ∧
    (createJudgeLLMConfig zeroRetriesJudge retriesDefaults).num_retries = some 5 ∧
    effNumRetries zeroRetriesJudge {} = some 3 ∧
    (createJudgeLLMConfig zeroRetriesJudge retriesDefaults).max_tokens = some 512 :=
  ⟨rfl, rfl, rfl, rfl⟩

/-- Environment in which no registry file exists anywhere. -/
def missingFileEnv : RegistryEnv :=
  { pathExists := fun _ => false, parseYaml := fun _ => none }

/-- A loaded registry used to exhibit the load-once behavior. -/
def loadedRegistrySample : List (String × GEvalConfig) :=
  [("tech", { criteria := some "c" })]

/-- C8: evaluating `_load_registry` with an explicitly supplied path to a
missing file raises (the warning f-string references `possible_paths`,
which is unbound in the explicit-path branch) instead of completing with
an empty registry; without an explicit path the missing-everywhere case
does complete with an empty registry, and a second load returns the
already-loaded registry unchanged. -/
theorem load_registry_explicit_missing_path_raises :
    loadRegistry none (some "/etc/geval/registry.yaml") missingFileEnv =
      Except.error "NameError: name possible_paths is not defined" ∧
    loadRegistry none none missingFileEnv = Except.ok (some []) ∧
    loadRegistry (some loadedRegistrySample) (some "/etc/geval/registry.yaml")
      missingFileEnv = Except.ok (some loadedRegistrySample) ∧
    loadRegistry (some loadedRegistrySample) none missingFileEnv =
      Except.ok (some loadedRegistrySample) :=
  ⟨rfl, rfl, rfl, rfl⟩

/-- Helper: `_determine_status` never yields ERROR. -/
theorem determineStatus_ne_error (s : ℚ) (thr : Option ℚ) :
    determineStatus s thr ≠ Status.ERROR := by
  show (if thr.getD (1 / 2) ≤ s then Status.PASS else Status.FAIL) ≠ Status.ERROR
  by_cases h : thr.getD (1 / 2) ≤ s
  · rw [if_pos h]; simp
  · rw [if_neg h]; simp

/-- Helper: against a present threshold, `_determine_status` yields PASS
exactly when the score is at least the threshold. -/
theorem determineStatus_pass_iff (s tv : ℚ) :
    determineStatus s (some tv) = Status.PASS ↔ tv ≤ s := by
  show (if tv ≤ s then Status.PASS else Status.FAIL) = Status.PASS ↔ tv ≤ s
  by_cases h : tv ≤ s
  · rw [if_pos h]; simp [h]
  · rw [if_neg h]; simp [h]

/-- Helper: against a present threshold, `_determine_status` yields FAIL
exactly when the score is strictly below the threshold. -/
theorem determineStatus_fail_iff (s tv : ℚ) :
    determineStatus s (some tv) = Status.FAIL ↔ s < tv := by
  show (if tv ≤ s then Status.PASS else Status.FAIL) = Status.FAIL ↔ s < tv
  by_cases h : tv ≤ s
  · rw [if_pos h]; simp [not_lt.mpr h]
  · rw [if_neg h]; simp [not_le.mp h]

/-- C2: verdict status semantics: a verdict assembled by the evaluator
has status ERROR exactly when the score is absent (and then its emitted
threshold is null); otherwise its status is PASS exactly when the score
is at least the threshold, the comparison being inclusive, and FAIL
exactly when the score is strictly below it. -/
theorem verdict_status_semantics (req : EvaluationRequest) (thr : Option ℚ)
    (t : ℚ) (jid : String) (sc : Option ℚ) (reason : String) :
    ((assembleVerdict req thr t jid sc reason).result = Status.ERROR ↔ sc = none) ∧
    (sc = none → (assembleVerdict req thr t jid sc reason).threshold = none) ∧
    (∀ s : ℚ, sc = some s →
      (assembleVerdict req thr t jid sc reason).threshold = thr ∧
      (assembleVerdict req thr t jid sc reason).score = some s ∧
      ∀ tv : ℚ, thr = some tv →
        (((assembleVerdict req thr t jid sc reason).result = Status.PASS ↔ tv ≤ s) ∧
         ((assembleVerdict req thr t jid sc reason).result = Status.FAIL ↔ s < tv))) := by
  cases sc with
  | none =>
    refine ⟨?_, ?_, ?_⟩
    · simp [assembleVerdict, createErrorResult]
    · intro _; rfl
    · intro s hs; exact absurd hs (by simp)
  | some s0 =>
    refine ⟨?_, ?_, ?_⟩
    · constructor
      · intro h; exact absurd h (determineStatus_ne_error s0 thr)
      · intro h; exact absurd h (by simp)
    · intro h; exact absurd h (by simp)
    · intro s hs
      injection hs with hs
      subst hs
      refine ⟨rfl, rfl, ?_⟩
      intro tv htv
      subst htv
      exact ⟨determineStatus_pass_iff s0 tv, determineStatus_fail_iff s0 tv⟩

/-- C2 witness: with threshold 0.5, a score of exactly 0.5 assembles to
PASS, a score of 0.499999 to FAIL, and an absent score to ERROR with
null threshold. -/
theorem verdict_status_semantics_witness :
    (assembleVerdict sampleRequest (some (1 / 2)) 0 "j1" (some (1 / 2)) "ok").result
      = Status.PASS ∧
    (assembleVerdict sampleRequest (some (1 / 2)) 0 "j1"
      (some (499999 / 1000000)) "low").result = Status.FAIL ∧
    (assembleVerdict sampleRequest (some (1 / 2)) 0 "j1" none "err").result
      = Status.ERROR ∧
    (assembleVerdict sampleRequest (some (1 / 2)) 0 "j1" none "err").threshold
      = none := by
  refine ⟨?_, ?_, ?_, ?_⟩
  · exact ((((verdict_status_semantics sampleRequest (some (1 / 2)) 0 "j1"
      (some (1 / 2)) "ok").2.2 (1 / 2) rfl).2.2 (1 / 2) rfl).1).mpr (le_refl _)
  · exact ((((verdict_status_semantics sampleRequest (some (1 / 2)) 0 "j1"
      (some (499999 / 1000000)) "low").2.2 (499999 / 1000000) rfl).2.2
      (1 / 2) rfl).2).mpr (by norm_num)
  · exact ((verdict_status_semantics sampleRequest (some (1 / 2)) 0 "j1"
      none "err").1).mpr rfl
  · exact (verdict_status_semantics sampleRequest (some (1 / 2)) 0 "j1"
      none "err").2.1 rfl

/-- Helper: a successful dictionary lookup implies the mapping is truthy
(non-`None` and non-empty). -/
theorem truthyMeta_of_lookup {α : Type} {m : Option (List (String × α))}
    {k : String} {v : α} (h : lookupMeta m k = some v) : truthyMeta m = true := by
  cases m with
  | none => simp [lookupMeta] at h
  | some l =>
    cases l with
    | nil => simp [lookupMeta, assocLookup] at h
    | cons x rest => simp [truthyMeta]

/-- C4: criteria resolution priority: for a single-turn evaluation,
resolution returns the turn-metadata entry under `geval:{metric}` when
present; with no turn-metadata entry it returns the conversation-metadata
entry; with neither it returns the registry entry keyed by the bare
metric name; and for a conversation-level evaluation the turn metadata is
never consulted. -/
theorem criteria_resolution_priority (registry : List (String × GEvalConfig))
    (convData : ConvData) (td : TurnData) (metricName : String) :
    (∀ c, lookupMeta td.turn_metrics_metadata ("geval:" ++ metricName) = some c →
      getGevalConfig (some registry) metricName convData (some td) false = some c) ∧
    (lookupMeta td.turn_metrics_metadata ("geval:" ++ metricName) = none →
      ∀ c, lookupMeta convData.conversation_metrics_metadata
          ("geval:" ++ metricName) = some c →
        getGevalConfig (some registry) metricName convData (some td) false = some c) ∧
    (lookupMeta td.turn_metrics_metadata ("geval:" ++ metricName) = none →
      lookupMeta convData.conversation_metrics_metadata
          ("geval:" ++ metricName) = none →
      ∀ c, assocLookup registry metricName = some c →
        getGevalConfig (some registry) metricName convData (some td) false = some c) ∧
    (∀ c, lookupMeta convData.conversation_metrics_metadata
        ("geval:" ++ metricName) = some c →
      getGevalConfig (some registry) metricName convData (some td) true = some c) := by
  refine ⟨?_, ?_, ?_, ?_⟩
  · intro c h
    have ht := truthyMeta_of_lookup h
    simp [getGevalConfig, turnLevelConfig, ht, h]
  · intro h1 c h2
    have ht := truthyMeta_of_lookup h2
    simp [getGevalConfig, turnLevelConfig, convLevelConfig, h1, h2, ht]
  · intro h1 h2 c h3
    have h3' : lookupMeta (some registry) metricName = some c := h3
    have ht : truthyMeta (some registry) = true := truthyMeta_of_lookup h3'
    simp [getGevalConfig, turnLevelConfig, convLevelConfig, registryConfig,
      h1, h2, h3', ht]
  · intro c h
    have ht := truthyMeta_of_lookup h
    simp [getGevalConfig, turnLevelConfig, convLevelConfig, ht, h]

/-- Turn-level rubric for the C4 witness. -/
def cfgTurn : GEvalConfig := { criteria := some "turn criteria" }

/-- Conversation-level rubric for the C4 witness. -/
def cfgConv : GEvalConfig := { criteria := some "conv criteria" }

/-- Registry rubric for the C4 witness. -/
def cfgReg : GEvalConfig := { criteria := some "reg criteria" }

/-- Turn data defining the metric in its turn metadata. -/
def tdAll : TurnData := { turn_metrics_metadata := some [("geval:tech", cfgTurn)] }

/-- Turn data defining no metrics. -/
def tdBare : TurnData := { turn_metrics_metadata := none }

/-- Conversation data defining the metric in its conversation metadata. -/
def convAll : ConvData :=
  { conversation_metrics_metadata := some [("geval:tech", cfgConv)] }

/-- Conversation data defining no metrics. -/
def convBare : ConvData := {}

/-- Registry defining the metric. -/
def regAll : List (String × GEvalConfig) := [("tech", cfgReg)]

/-- C4 witness: with the metric defined in all three sources resolution
returns the turn-metadata rubric; removing the turn entry yields the
conversation-metadata rubric; removing that yields the registry rubric. -/
theorem criteria_resolution_priority_witness :
    getGevalConfig (some regAll) "tech" convAll (some tdAll) false = some cfgTurn ∧
    getGevalConfig (some regAll) "tech" convAll (some tdBare) false = some cfgConv ∧
    getGevalConfig (some regAll) "tech" convBare (some tdBare) false = some cfgReg :=
  ⟨(criteria_resolution_priority regAll convAll tdAll "tech").1 cfgTurn rfl,
   (criteria_resolution_priority regAll convAll tdBare "tech").2.1 rfl cfgConv rfl,
   (criteria_resolution_priority regAll convBare tdBare "tech").2.2.1 rfl rfl cfgReg rfl⟩

/-- Helper: one invalid entry anywhere makes the conversion loop return
`none`. -/
theorem convertParamsList_none_of_invalid {ps : List String} {p : String}
    (hp : p ∈ ps) (hinv : paramFromName (normalizeParamName p) = none) :
    convertParamsList ps = none := by
  induction ps with
  | nil => cases hp
  | cons q rest ih =>
    cases hp with
    | head => simp [convertParamsList, hinv]
    | tail _ hmem =>
      unfold convertParamsList
      cases hq : paramFromName (normalizeParamName q) with
      | none => rfl
      | some e => simp [ih hmem]

/-- Helper: when every entry is valid the conversion loop returns them
all, in order. -/
theorem convertParamsList_all_valid {ps : List String}
    (h : ∀ p ∈ ps, (paramFromName (normalizeParamName p)).isSome) :
    convertParamsList ps =
      some (ps.filterMap (fun p => paramFromName (normalizeParamName p))) := by
  induction ps with
  | nil => rfl
  | cons q rest ih =>
    have hq := h q (List.mem_cons_self q rest)
    cases hval : paramFromName (normalizeParamName q) with
    | none => rw [hval] at hq; cases hq
    | some e =>
      have hrest := ih (fun p hp => h p (List.mem_cons_of_mem q hp))
      simp [convertParamsList, hval, hrest, List.filterMap_cons]

/-- C6: all-or-nothing evaluation-parameter conversion: a parameter list
containing any entry outside the canonical LLMTestCaseParams vocabulary
is discarded entirely in favor of the default pair (input,
actual_output), while a non-empty all-valid list is converted and used
as given. -/
theorem all_or_nothing_param_conversion (ps : List String) :
    ((∃ p ∈ ps, paramFromName (normalizeParamName p) = none) →
      effectiveEvaluationParams ps =
        [LLMTestCaseParams.INPUT, LLMTestCaseParams.ACTUAL_OUTPUT]) ∧
    (ps ≠ [] → (∀ p ∈ ps, (paramFromName (normalizeParamName p)).isSome) →
      convertEvaluationParams ps =
        some (ps.filterMap (fun p => paramFromName (normalizeParamName p))) ∧
      effectiveEvaluationParams ps =
        ps.filterMap (fun p => paramFromName (normalizeParamName p))) := by
  constructor
  · rintro ⟨p, hp, hinv⟩
    have hnone := convertParamsList_none_of_invalid hp hinv
    have hconv : convertEvaluationParams ps = none := by
      unfold convertEvaluationParams
      rw [hnone]
      split <;> rfl
    unfold effectiveEvaluationParams
    rw [hconv]
  · intro hne hval
    cases ps with
    | nil => exact absurd rfl hne
    | cons q rest =>
      have hq := hval q (List.mem_cons_self q rest)
      cases he : paramFromName (normalizeParamName q) with
      | none => rw [he] at hq; cases hq
      | some e =>
        have hcl := convertParamsList_all_valid hval
        have hfl : (q :: rest).filterMap (fun p => paramFromName (normalizeParamName p)) =
            e :: rest.filterMap (fun p => paramFromName (normalizeParamName p)) := by
          simp [List.filterMap_cons, he]
        have hconv : convertEvaluationParams (q :: rest) =
            some ((q :: rest).filterMap (fun p => paramFromName (normalizeParamName p))) := by
          unfold convertEvaluationParams
          rw [hcl, hfl]
          simp
        refine ⟨hconv, ?_⟩
        unfold effectiveEvaluationParams
        rw [hconv, hfl]

/-- C6 witness: the mixed list [input, correctness] is discarded in favor
of the default pair, while the all-valid list [expected output, context]
is converted and used as given. -/
theorem all_or_nothing_param_conversion_witness :
    effectiveEvaluationParams ["input", "correctness"] =
      [LLMTestCaseParams.INPUT, LLMTestCaseParams.ACTUAL_OUTPUT] ∧
    effectiveEvaluationParams ["expected output", "context"] =
      [LLMTestCaseParams.EXPECTED_OUTPUT, LLMTestCaseParams.CONTEXT] := by
  constructor
  · exact (all_or_nothing_param_conversion ["input", "correctness"]).1
      ⟨"correctness", by simp, rfl⟩
  · have h := ((all_or_nothing_param_conversion ["expected output", "context"]).2
      (by simp) (by decide)).2
    rw [h]
    rfl

/-- Helper: indexing into the collected panel results is indexing into
the judge list followed by the per-judge conversion. -/
theorem invokeJudges_get? (judges : List (String × JudgeOutcome)) (k : ℕ) :
    (invokeJudges judges).get? k = (judges.get? k).map (fun j =>
      match j.2 with
      | JudgeOutcome.ok s r => (j.1, some s, r)
      | JudgeOutcome.exn m => (j.1, none, evalErrorMsg m)) := by
  unfold invokeJudges
  exact List.get?_map _ _ _

/-- C1: per-judge failure isolation: with a resolvable rubric carrying
non-empty criteria, evaluation returns exactly one tuple per configured
judge; a judge whose invocation raises yields a tuple with an absent
score and an error-message reason, while every other judge's tuple
carries that judge's own result. -/
theorem per_judge_failure_isolation
    (registry : Option (List (String × GEvalConfig))) (metricName : String)
    (convData : ConvData) (turnData : Option TurnData) (isConversation : Bool)
    (judges : List (String × JudgeOutcome)) (cfg : GEvalConfig) (crit : String)
    (hcfg : getGevalConfig registry metricName convData turnData isConversation
      = some cfg)
    (hcrit : cfg.criteria = some crit) (hne : crit ≠ "")
    (k : ℕ) (jid : String) (msg : String)
    (hexn : judges.get? k = some (jid, JudgeOutcome.exn msg)) :
    (gevalHandlerExtEvaluate registry metricName convData turnData isConversation
        judges).length = judges.length ∧
    (gevalHandlerExtEvaluate registry metricName convData turnData isConversation
        judges).get? k = some (jid, none, evalErrorMsg msg) ∧
    (∀ (j : ℕ) (jid2 : String) (s : ℚ) (r : String),
      judges.get? j = some (jid2, JudgeOutcome.ok s r) →
      (gevalHandlerExtEvaluate registry metricName convData turnData isConversation
          judges).get? j = some (jid2, some s, r)) := by
  have hres : gevalHandlerExtEvaluate registry metricName convData turnData
      isConversation judges = invokeJudges judges := by
    unfold gevalHandlerExtEvaluate
    rw [hcfg]
    show (if cfg.criteria.getD "" = "" then [("primary", none, missingCriteriaMsg)]
      else invokeJudges judges) = invokeJudges judges
    rw [hcrit]
    simp [hne]
  refine ⟨?_, ?_, ?_⟩
  · rw [hres]
    unfold invokeJudges
    exact List.length_map _ _
  · rw [hres, invokeJudges_get?, hexn]
    rfl
  · intro j jid2 s r hj
    rw [hres, invokeJudges_get?, hj]
    rfl

/-- Registry used by the C1 witness. -/
def panelRegistry : Option (List (String × GEvalConfig)) :=
  some [("tech", { criteria := some "accuracy" })]

/-- Three-judge panel in which the second judge's invocation raises. -/
def threeJudges : List (String × JudgeOutcome) :=
  [("j1", JudgeOutcome.ok (8 / 10) "good"),
   ("j2", JudgeOutcome.exn "timeout"),
   ("j3", JudgeOutcome.ok (6 / 10) "fair")]

/-- C1 witness: with three judges of which the second raises, evaluation
returns exactly three tuples, the second with an absent score and an
error reason, the first and third with their own scores. -/
theorem per_judge_failure_isolation_witness :
    (gevalHandlerExtEvaluate panelRegistry "tech" {} none false threeJudges).length
      = 3 ∧
    (gevalHandlerExtEvaluate panelRegistry "tech" {} none false threeJudges).get? 1
      = some ("j2", none, evalErrorMsg "timeout") ∧
    (gevalHandlerExtEvaluate panelRegistry "tech" {} none false threeJudges).get? 0
      = some ("j1", some (8 / 10), "good") ∧
    (gevalHandlerExtEvaluate panelRegistry "tech" {} none false threeJudges).get? 2
      = some ("j3", some (6 / 10), "fair") := by
  have h := per_judge_failure_isolation panelRegistry "tech" {} none false
    threeJudges { criteria := some "accuracy" } "accuracy" rfl rfl (by decide)
    1 "j2" "timeout" rfl
  exact ⟨h.1, h.2.1, h.2.2 0 "j1" (8 / 10) "good" rfl,
    h.2.2 2 "j3" (6 / 10) "fair" rfl⟩

/-- C7: unresolved rubric is a soft error: when no source defines the
metric, resolution returns `none` (the embedding is total — no exception
path exists), the handler short-circuits to a single not-found tuple, and
the evaluator converts it into exactly one ERROR verdict whose reason
explains that the configuration for the metric was not found. -/
theorem unresolved_rubric_soft_error
    (registry : Option (List (String × GEvalConfig))) (metricName : String)
    (convData : ConvData) (turnData : Option TurnData) (isConversation : Bool)
    (judges : List (String × JudgeOutcome)) (req : EvaluationRequest)
    (thr : Option ℚ) (t : ℚ)
    (h1 : turnLevelConfig ("geval:" ++ metricName) turnData isConversation = none)
    (h2 : convLevelConfig ("geval:" ++ metricName) convData = none)
    (h3 : registryConfig registry metricName = none) :
    getGevalConfig registry metricName convData turnData isConversation = none ∧
    gevalHandlerExtEvaluate registry metricName convData turnData isConversation
        judges = [("primary", none, configNotFoundMsg metricName)] ∧
    processHandlerResult req thr t
        (gevalHandlerExtEvaluate registry metricName convData turnData
          isConversation judges)
      = [createErrorResult req (configNotFoundMsg metricName) t (some "primary")] ∧
    (createErrorResult req (configNotFoundMsg metricName) t (some "primary")).result
      = Status.ERROR ∧
    (createErrorResult req (configNotFoundMsg metricName) t
        (some "primary")).judge_id = none ∧
    (createErrorResult req (configNotFoundMsg metricName) t
        (some "primary")).reason = configNotFoundMsg metricName := by
  have hget : getGevalConfig registry metricName convData turnData isConversation
      = none := by
    simp [getGevalConfig, h1, h2, h3]
  have heval : gevalHandlerExtEvaluate registry metricName convData turnData
      isConversation judges = [("primary", none, configNotFoundMsg metricName)] := by
    unfold gevalHandlerExtEvaluate
    rw [hget]
  refine ⟨hget, heval, ?_, rfl, ?_, rfl⟩
  · rw [heval]
    rfl
  · rfl

/-- C7 witness: a metric defined nowhere resolves to `none` and produces
exactly one ERROR verdict with the explanatory reason. -/
theorem unresolved_rubric_soft_error_witness :
    getGevalConfig none "missing" {} none false = none ∧
    processHandlerResult sampleRequest none 0
        (gevalHandlerExtEvaluate none "missing" {} none false [])
      = [createErrorResult sampleRequest (configNotFoundMsg "missing") 0
          (some "primary")] ∧
    (createErrorResult sampleRequest (configNotFoundMsg "missing") 0
        (some "primary")).result = Status.ERROR := by
  have h := unresolved_rubric_soft_error none "missing" {} none false []
    sampleRequest none 0 rfl rfl rfl
  exact ⟨h.1, h.2.2.1, h.2.2.2.1⟩

/-- C9: non-panel backward compatibility: with the panel disabled the
manager holds exactly one handle carrying the identifier `primary`, and
the evaluator emits exactly one verdict per handler tuple in which that
identifier is normalized to a null judge_id, in both the success and the
error paths. -/
theorem non_panel_backward_compat
    (model_name : String) (llm_params : DefaultParams) (primary : LiteLLMModelSpec)
    (panel_config : Option PanelOfJudgesConfig) (resolve : String → String → String)
    (req : EvaluationRequest) (thr : Option ℚ) (t : ℚ)
    (hdis : (panel_config.map (fun c => c.enabled)).getD false = false) :
    (∃ st, mkDeepEvalLLMManagerExt model_name llm_params primary panel_config resolve
        = Except.ok st ∧ getLLMs st = [("primary", primary)]) ∧
    (∀ (sc : Option ℚ) (reason : String),
      (processHandlerResult req thr t [("primary", sc, reason)]).length = 1 ∧
      (processHandlerResult req thr t [("primary", sc, reason)]).map
        (fun v => v.judge_id) = [none]) := by
  constructor
  · cases panel_config with
    | none =>
      exact ⟨{ model_name := model_name, panel_enabled := false, judge_models := [],
               llm_model := primary }, rfl, rfl⟩
    | some c =>
      have hce : c.enabled = false := by simpa using hdis
      refine ⟨{ model_name := model_name, panel_enabled := false, judge_models := [],
                llm_model := primary }, ?_, rfl⟩
      simp [mkDeepEvalLLMManagerExt, hce]
  · intro sc reason
    cases sc with
    | none => exact ⟨rfl, rfl⟩
    | some s => exact ⟨rfl, rfl⟩

/-- Primary model used by the C9 witness. -/
def samplePrimary : LiteLLMModelSpec :=
  { model := "openai/gpt-4o-mini", temperature := 0, max_tokens := some 512,
    timeout := some 300, num_retries := some 3 }

/-- C9 witness: with no panel configuration the manager exposes the
single `primary` handle and a `primary` handler tuple assembles to one
verdict with a null judge_id. -/
theorem non_panel_backward_compat_witness :
    (∃ st, mkDeepEvalLLMManagerExt "gpt-4o-mini" {} samplePrimary none
        (fun p m => p ++ "/" ++ m) = Except.ok st ∧
      getLLMs st = [("primary", samplePrimary)]) ∧
    (processHandlerResult sampleRequest none 0 [("primary", some (7 / 10), "good")]).map
      (fun v => v.judge_id) = [none] ∧
    (processHandlerResult sampleRequest none 0 [("primary", none, "boom")]).map
      (fun v => v.judge_id) = [none] := by
  have h := non_panel_backward_compat "gpt-4o-mini" {} samplePrimary none
    (fun p m => p ++ "/" ++ m) sampleRequest none 0 rfl
  exact ⟨h.1, (h.2 (some (7 / 10)) "good").2, (h.2 none "boom").2⟩
